import Mathlib

/-!
Verification of the deal-economics engine of TermSheetGPT (`src/app.py`).

The engine is a handful of pure functions over numbers; Python floats are
modelled as exact rationals (`ℚ`), Python `None` as `Option.none`, and the
free-text liquidation type as a `String` tested for the lowercase substring
"non-participating" exactly as the source does.
-/

namespace TermSheetGPT

/-- `sub` occurs as a prefix of `s` (character lists compared with `==`). -/
def startsWith : List Char → List Char → Bool
  | [], _ => true
  | _ :: _, [] => false
  | a :: as, b :: bs => a == b && startsWith as bs

/-- `sub` occurs as a contiguous substring of `s`. -/
def containsSub (sub : List Char) : List Char → Bool
  | [] => sub.isEmpty
  | b :: bs => startsWith sub (b :: bs) || containsSub sub bs

/-- The branch test of `waterfall` in `src/app.py`:
`"non-participating" in liq_type.lower()`. -/
def isNonParticipating (liq_type : String) : Bool :=
  containsSub "non-participating".data (liq_type.data.map Char.toLower)

/-- `implied_revenue_multiple` from `src/app.py`:
`if rev and rev > 0: return pre / rev` else `None`.
(`rev and rev > 0` keeps Python's truthiness test on `rev`.) -/
def implied_revenue_multiple (pre rev : ℚ) : Option ℚ :=
  if rev ≠ 0 ∧ rev > 0 then some (pre / rev) else none

/-- `waterfall` from `src/app.py`, lines 699–718. -/
def waterfall (pre invest liq_mult : ℚ) (liq_type : String) (equity exit_v : ℚ) :
    ℚ × ℚ :=
  if pre ≤ 0 ∨ invest ≤ 0 ∨ liq_mult ≤ 0 ∨ exit_v ≤ 0 then (0, 0)
  else
    let post := pre + invest
    let owner := if equity > 0 then equity / 100 else invest / post
    let pref := invest * liq_mult
    if isNonParticipating liq_type then
      let pro_rata := owner * exit_v
      let investor_payout := min (max pref pro_rata) exit_v
      let founder_payout := max (exit_v - investor_payout) 0
      (investor_payout, founder_payout)
    else
      let remaining := max (exit_v - pref) 0
      let investor_extra := owner * remaining
      let investor_payout := min (pref + investor_extra) exit_v
      let founder_payout := max (exit_v - investor_payout) 0
      (investor_payout, founder_payout)

/-- Numeric content of `plot_ownership` from `src/app.py`: the pie-chart
values `(new_investor, existing)`, or `None` when the guard fails.
(`equity_pct and equity_pct > 0` keeps Python's truthiness test.) -/
def plot_ownership (pre invest equity_pct : ℚ) : Option (ℚ × ℚ) :=
  if pre ≤ 0 ∨ invest ≤ 0 then none
  else
    let post := pre + invest
    let new_investor :=
      if equity_pct ≠ 0 ∧ equity_pct > 0 then equity_pct else invest / post * 100
    let existing := max (100 - new_investor) 0
    some (new_investor, existing)

/-- Numeric content of `plot_waterfall_scenarios` from `src/app.py`: for each
exit in `[0.5*base_exit, base_exit, 2.0*base_exit]` (that order), the triple
`(exit value, investor payout, founder payout)`; `None` when `base_exit ≤ 0`.
The `currency` argument only feeds chart labels in the source. -/
def plot_waterfall_scenarios (pre invest liq_mult : ℚ) (liq_type : String)
    (equity : ℚ) (currency : String) (base_exit : ℚ) :
    Option (List (ℚ × ℚ × ℚ)) :=
  if base_exit ≤ 0 then none
  else
    let exits := [0.5 * base_exit, base_exit, 2.0 * base_exit]
    some (exits.map fun e =>
      let r := waterfall pre invest liq_mult liq_type equity e
      (e, r.1, r.2))

/-- The new-investor ownership fraction (step 2 of §4.3). -/
def ownerFrac (pre invest equity : ℚ) : ℚ :=
  if equity > 0 then equity / 100 else invest / (pre + invest)

lemma waterfall_guard_neg {pre invest liq_mult exit_v : ℚ}
    (h1 : 0 < pre) (h2 : 0 < invest) (h3 : 0 < liq_mult) (h4 : 0 < exit_v) :
    ¬(pre ≤ 0 ∨ invest ≤ 0 ∨ liq_mult ≤ 0 ∨ exit_v ≤ 0) := by
  push_neg
  exact ⟨h1, h2, h3, h4⟩

lemma waterfall_eq_nonparticipating (pre invest liq_mult equity exit_v : ℚ)
    (t : String) (h1 : 0 < pre) (h2 : 0 < invest) (h3 : 0 < liq_mult)
    (h4 : 0 < exit_v) (ht : isNonParticipating t = true) :
    waterfall pre invest liq_mult t equity exit_v =
      (min (max (invest * liq_mult) (ownerFrac pre invest equity * exit_v)) exit_v,
       max (exit_v -
         min (max (invest * liq_mult) (ownerFrac pre invest equity * exit_v)) exit_v)
         0) := by
  simp only [waterfall, if_neg (waterfall_guard_neg h1 h2 h3 h4), ht, if_true,
    ownerFrac]

lemma waterfall_eq_participating (pre invest liq_mult equity exit_v : ℚ)
    (t : String) (h1 : 0 < pre) (h2 : 0 < invest) (h3 : 0 < liq_mult)
    (h4 : 0 < exit_v) (ht : isNonParticipating t = false) :
    waterfall pre invest liq_mult t equity exit_v =
      (min (invest * liq_mult +
          ownerFrac pre invest equity * max (exit_v - invest * liq_mult) 0) exit_v,
       max (exit_v -
         min (invest * liq_mult +
           ownerFrac pre invest equity * max (exit_v - invest * liq_mult) 0) exit_v)
         0) := by
  simp only [waterfall, if_neg (waterfall_guard_neg h1 h2 h3 h4), ht,
    Bool.false_eq_true, if_false, ownerFrac]

lemma ownerFrac_pos {pre invest : ℚ} (equity : ℚ) (h1 : 0 < pre)
    (h2 : 0 < invest) : 0 < ownerFrac pre invest equity := by
  unfold ownerFrac
  split
  · next he => positivity
  · exact div_pos h2 (by linarith)

lemma ownerFrac_le_one {pre invest equity : ℚ} (h1 : 0 < pre) (h2 : 0 < invest)
    (h6 : equity ≤ 100) : ownerFrac pre invest equity ≤ 1 := by
  unfold ownerFrac
  split
  · next he => linarith [div_le_one_of_le h6 (by norm_num : (0:ℚ) ≤ 100)]
  · rw [div_le_one (by linarith)]
    linarith

/-- Shared shape of both waterfall branches: an investor amount `A ≥ 0`
capped at the exit value, the founder getting the (clamped) rest. -/
lemma capped_split (A e : ℚ) (hA : 0 ≤ A) (he : 0 ≤ e) :
    0 ≤ min A e ∧ 0 ≤ max (e - min A e) 0 ∧
      min A e + max (e - min A e) 0 ≤ e ∧
      min A e + max (e - min A e) 0 = e := by
  have hle : min A e ≤ e := min_le_right _ _
  have hmax : max (e - min A e) 0 = e - min A e := max_eq_left (by linarith)
  refine ⟨le_min hA he, le_max_right _ _, ?_, ?_⟩ <;> rw [hmax] <;> linarith

/-- C1: for positive `preMoney`, `investmentAmount`, `liquidationMultiple` and
`exitValue`, on the non-participating branch `waterfall` returns
`investorPayout = min(max(preference, owner*exitValue), exitValue)` and
`founderPayout = max(exitValue - investorPayout, 0)`, with
`preference = investmentAmount * liquidationMultiple` and `owner` the §4.3
ownership fraction (`equity/100` when `equity > 0`, else
`investmentAmount / postMoney`). -/
theorem waterfall_nonparticipating_formula
    (pre invest liq_mult equity exit_v : ℚ) (t : String)
    (h1 : 0 < pre) (h2 : 0 < invest) (h3 : 0 < liq_mult) (h4 : 0 < exit_v)
    (ht : isNonParticipating t = true) :
    waterfall pre invest liq_mult t equity exit_v =
      (min (max (invest * liq_mult) (ownerFrac pre invest equity * exit_v)) exit_v,
       max (exit_v -
         min (max (invest * liq_mult) (ownerFrac pre invest equity * exit_v)) exit_v)
         0) :=
  waterfall_eq_nonparticipating pre invest liq_mult equity exit_v t h1 h2 h3 h4 ht

/-- C1 witness: the spec's non-participating example
`(10_000_000, 3_000_000, 1.0, 20, 50_000_000)` yields
`(10_000_000, 40_000_000)`. -/
theorem waterfall_nonparticipating_formula_witness :
    waterfall 10000000 3000000 1 "Non-Participating" 20 50000000 =
      (10000000, 40000000) := by
  rw [waterfall_nonparticipating_formula 10000000 3000000 1 20 50000000
    "Non-Participating" (by norm_num) (by norm_num) (by norm_num) (by norm_num)
    (by decide)]
  norm_num [ownerFrac, min_def, max_def]

/-- C2: for positive `preMoney`, `investmentAmount`, `liquidationMultiple` and
`exitValue`, on the participating branch `waterfall` returns
`investorPayout = min(preference + owner * max(exitValue - preference, 0), exitValue)`
and `founderPayout = max(exitValue - investorPayout, 0)`. -/
theorem waterfall_participating_formula
    (pre invest liq_mult equity exit_v : ℚ) (t : String)
    (h1 : 0 < pre) (h2 : 0 < invest) (h3 : 0 < liq_mult) (h4 : 0 < exit_v)
    (ht : isNonParticipating t = false) :
    waterfall pre invest liq_mult t equity exit_v =
      (min (invest * liq_mult +
          ownerFrac pre invest equity * max (exit_v - invest * liq_mult) 0) exit_v,
       max (exit_v -
         min (invest * liq_mult +
           ownerFrac pre invest equity * max (exit_v - invest * liq_mult) 0) exit_v)
         0) :=
  waterfall_eq_participating pre invest liq_mult equity exit_v t h1 h2 h3 h4 ht

/-- C2 witness: the spec's participating example
`(10_000_000, 3_000_000, 1.0, 20, 50_000_000)` yields
`(12_400_000, 37_600_000)`. -/
theorem waterfall_participating_formula_witness :
    waterfall 10000000 3000000 1 "Participating" 20 50000000 =
      (12400000, 37600000) := by
  rw [waterfall_participating_formula 10000000 3000000 1 20 50000000
    "Participating" (by norm_num) (by norm_num) (by norm_num) (by norm_num)
    (by decide)]
  norm_num [ownerFrac, min_def, max_def]

/-- C3: when `preMoney ≤ 0` or `investmentAmount ≤ 0` or
`liquidationMultiple ≤ 0` or `exitValue ≤ 0`, `waterfall` returns exactly
`(0, 0)` for every liquidation-type string; moreover the denominator of the
owner fallback is strictly positive whenever both money amounts are positive
(the only case in which the code evaluates the division). -/
theorem waterfall_degenerate_zero
    (pre invest liq_mult equity exit_v : ℚ) (t : String)
    (h : pre ≤ 0 ∨ invest ≤ 0 ∨ liq_mult ≤ 0 ∨ exit_v ≤ 0) :
    waterfall pre invest liq_mult t equity exit_v = (0, 0) ∧
      (0 < pre → 0 < invest → 0 < pre + invest) := by
  refine ⟨?_, fun hp hi => by linarith⟩
  simp only [waterfall, if_pos h]

/-- C3 witness: `waterfall` at `preMoney = 0` returns `(0, 0)` (participating
type string), and the fallback denominator claim is vacuous there. -/
theorem waterfall_degenerate_zero_witness :
    waterfall 0 3000000 1 "Participating" 20 50000000 = (0, 0) ∧
      (0 < (0 : ℚ) → 0 < (3000000 : ℚ) → 0 < (0 : ℚ) + 3000000) :=
  waterfall_degenerate_zero 0 3000000 1 20 50000000 "Participating"
    (Or.inl le_rfl)

/-- C9: `implied_revenue_multiple` returns `pre / rev` when `rev > 0` and
`none` (never an exception) when `rev ≤ 0`. -/
theorem implied_revenue_multiple_spec (pre rev : ℚ) :
    (0 < rev → implied_revenue_multiple pre rev = some (pre / rev)) ∧
      (rev ≤ 0 → implied_revenue_multiple pre rev = none) := by
  constructor
  · intro h
    simp [implied_revenue_multiple, h, ne_of_gt h]
  · intro h
    simp only [implied_revenue_multiple, ite_eq_right_iff]
    intro hc
    exact absurd hc.2 (not_lt.mpr h)

/-- C9 witness: `implied_revenue_multiple(10_000_000, 0)` is unavailable and
`implied_revenue_multiple(10_000_000, 2_000_000) = 5`. -/
theorem implied_revenue_multiple_spec_witness :
    implied_revenue_multiple 10000000 0 = none ∧
      implied_revenue_multiple 10000000 2000000 = some 5 := by
  refine ⟨(implied_revenue_multiple_spec 10000000 0).2 le_rfl, ?_⟩
  rw [(implied_revenue_multiple_spec 10000000 2000000).1 (by norm_num)]
  norm_num

/-- C7: the multi-scenario waterfall is unavailable when `baseExitValue ≤ 0`,
and otherwise produces exactly the three scenarios at exit values
`[0.5*base, base, 2.0*base]`, in that fixed order, each computed via the §4.3
`waterfall`. -/
theorem waterfall_scenarios_spec (pre invest liq_mult equity : ℚ)
    (t c : String) (base_exit : ℚ) :
    (base_exit ≤ 0 →
      plot_waterfall_scenarios pre invest liq_mult t equity c base_exit = none) ∧
    (0 < base_exit →
      plot_waterfall_scenarios pre invest liq_mult t equity c base_exit =
        some [(0.5 * base_exit,
                (waterfall pre invest liq_mult t equity (0.5 * base_exit)).1,
                (waterfall pre invest liq_mult t equity (0.5 * base_exit)).2),
              (base_exit,
                (waterfall pre invest liq_mult t equity base_exit).1,
                (waterfall pre invest liq_mult t equity base_exit).2),
              (2.0 * base_exit,
                (waterfall pre invest liq_mult t equity (2.0 * base_exit)).1,
                (waterfall pre invest liq_mult t equity (2.0 * base_exit)).2)]) := by
  constructor
  · intro h
    simp only [plot_waterfall_scenarios, if_pos h]
  · intro h
    simp only [plot_waterfall_scenarios, if_neg (not_le.mpr h), List.map]

/-- C7 witness: `baseExitValue = 50_000_000` yields exit values
`[25_000_000, 50_000_000, 100_000_000]` in downside → base → upside order
(payouts shown for the spec's non-participating parameters). -/
theorem waterfall_scenarios_spec_witness :
    plot_waterfall_scenarios 10000000 3000000 1 "Non-Participating" 20 "USD"
        50000000 =
      some [(25000000, 5000000, 20000000),
            (50000000, 10000000, 40000000),
            (100000000, 20000000, 80000000)] := by
  rw [(waterfall_scenarios_spec 10000000 3000000 1 20 "Non-Participating" "USD"
    50000000).2 (by norm_num)]
  have hnp : ∀ e : ℚ, 0 < e →
      waterfall 10000000 3000000 1 "Non-Participating" 20 e =
        (min (max 3000000 (e / 5)) e, max (e - min (max 3000000 (e / 5)) e) 0) := by
    intro e he
    rw [waterfall_eq_nonparticipating 10000000 3000000 1 20 e "Non-Participating"
      (by norm_num) (by norm_num) (by norm_num) he (by decide)]
    norm_num [ownerFrac]
    ring_nf
  rw [show ((0.5 : ℚ) * 50000000) = 25000000 by norm_num,
    show ((2.0 : ℚ) * 50000000) = 100000000 by norm_num,
    hnp 25000000 (by norm_num), hnp 50000000 (by norm_num),
    hnp 100000000 (by norm_num)]
  norm_num [min_def, max_def]

/-- C8: the ownership split is unavailable when `preMoney ≤ 0` or
`investmentAmount ≤ 0`; otherwise the new investor gets `equityPercentage`
when positive, else `investmentAmount/(preMoney+investmentAmount)*100`, and
existing holders get `max(100 - newInvestorPct, 0)` (never negative). -/
theorem ownership_split_spec (pre invest equity_pct : ℚ) :
    ((pre ≤ 0 ∨ invest ≤ 0) → plot_ownership pre invest equity_pct = none) ∧
    (0 < pre → 0 < invest →
      plot_ownership pre invest equity_pct =
        some (if 0 < equity_pct then equity_pct else invest / (pre + invest) * 100,
          max (100 -
            if 0 < equity_pct then equity_pct else invest / (pre + invest) * 100)
            0)) := by
  constructor
  · intro h
    simp only [plot_ownership, if_pos h]
  · intro hp hi
    have hg : ¬(pre ≤ 0 ∨ invest ≤ 0) := by push_neg; exact ⟨hp, hi⟩
    by_cases he : 0 < equity_pct
    · simp only [plot_ownership, if_neg hg, if_pos he,
        if_pos (And.intro (ne_of_gt he) he)]
    · have : ¬(equity_pct ≠ 0 ∧ equity_pct > 0) := fun hc => he hc.2
      simp only [plot_ownership, if_neg hg, if_neg he, if_neg this]

/-- C8 witness: `ownershipSplit(10_000_000, 3_000_000, 0)` gives the new
investor `300/13 ≈ 23.08%` and existing holders `1000/13 ≈ 76.92%`. -/
theorem ownership_split_spec_witness :
    plot_ownership 10000000 3000000 0 = some (300 / 13, 1000 / 13) := by
  rw [(ownership_split_spec 10000000 3000000 0).2 (by norm_num) (by norm_num)]
  norm_num [max_def]

/-- C10: under non-degenerate inputs `waterfall` has exactly two behaviours,
selected solely by whether the lowercased liquidation-type string contains
"non-participating": when it does not (empty or arbitrary unrecognized text
included) the participating formula is computed, and when it does the
non-participating formula is computed — no third branch or error exists. -/
theorem waterfall_branch_dichotomy
    (pre invest liq_mult equity exit_v : ℚ) (t : String)
    (h1 : 0 < pre) (h2 : 0 < invest) (h3 : 0 < liq_mult) (h4 : 0 < exit_v) :
    (isNonParticipating t = false →
      waterfall pre invest liq_mult t equity exit_v =
        (min (invest * liq_mult +
            ownerFrac pre invest equity * max (exit_v - invest * liq_mult) 0)
          exit_v,
         max (exit_v -
           min (invest * liq_mult +
             ownerFrac pre invest equity * max (exit_v - invest * liq_mult) 0)
             exit_v) 0)) ∧
    (isNonParticipating t = true →
      waterfall pre invest liq_mult t equity exit_v =
        (min (max (invest * liq_mult) (ownerFrac pre invest equity * exit_v))
          exit_v,
         max (exit_v -
           min (max (invest * liq_mult) (ownerFrac pre invest equity * exit_v))
             exit_v) 0)) :=
  ⟨waterfall_eq_participating pre invest liq_mult equity exit_v t h1 h2 h3 h4,
   waterfall_eq_nonparticipating pre invest liq_mult equity exit_v t h1 h2 h3 h4⟩

/-- C10 witness: the empty liquidation-type string takes the participating
branch — on the spec's example parameters it pays the investor
`12_400_000`, exactly as the participating branch does. -/
theorem waterfall_branch_dichotomy_witness :
    waterfall 10000000 3000000 1 "" 20 50000000 = (12400000, 37600000) := by
  rw [(waterfall_branch_dichotomy 10000000 3000000 1 20 50000000 ""
    (by norm_num) (by norm_num) (by norm_num) (by norm_num)).1 (by decide)]
  norm_num [ownerFrac, min_def, max_def]

/-- C4: for valid inputs (positive amounts/multiple/exit,
`equityPercentage ∈ [0,100]`) and any liquidation-type string, both payouts
are non-negative, their sum never exceeds the exit value, and in fact the
sum equals the exit value exactly. -/
theorem waterfall_payout_invariants
    (pre invest liq_mult equity exit_v : ℚ) (t : String)
    (h1 : 0 < pre) (h2 : 0 < invest) (h3 : 0 < liq_mult) (h4 : 0 < exit_v)
    (h5 : 0 ≤ equity) (h6 : equity ≤ 100) :
    0 ≤ (waterfall pre invest liq_mult t equity exit_v).1 ∧
      0 ≤ (waterfall pre invest liq_mult t equity exit_v).2 ∧
      (waterfall pre invest liq_mult t equity exit_v).1 +
        (waterfall pre invest liq_mult t equity exit_v).2 ≤ exit_v ∧
      (waterfall pre invest liq_mult t equity exit_v).1 +
        (waterfall pre invest liq_mult t equity exit_v).2 = exit_v := by
  have ho : 0 < ownerFrac pre invest equity := ownerFrac_pos equity h1 h2
  have hpref : 0 < invest * liq_mult := mul_pos h2 h3
  cases hb : isNonParticipating t
  · rw [waterfall_eq_participating pre invest liq_mult equity exit_v t
      h1 h2 h3 h4 hb]
    exact capped_split _ exit_v
      (by positivity) h4.le
  · rw [waterfall_eq_nonparticipating pre invest liq_mult equity exit_v t
      h1 h2 h3 h4 hb]
    exact capped_split _ exit_v
      (le_trans hpref.le (le_max_left _ _)) h4.le

/-- C4 witness: the invariants at the spec's non-participating example. -/
theorem waterfall_payout_invariants_witness :
    0 ≤ (waterfall 10000000 3000000 1 "Non-Participating" 20 50000000).1 ∧
      0 ≤ (waterfall 10000000 3000000 1 "Non-Participating" 20 50000000).2 ∧
      (waterfall 10000000 3000000 1 "Non-Participating" 20 50000000).1 +
        (waterfall 10000000 3000000 1 "Non-Participating" 20 50000000).2 ≤
          50000000 ∧
      (waterfall 10000000 3000000 1 "Non-Participating" 20 50000000).1 +
        (waterfall 10000000 3000000 1 "Non-Participating" 20 50000000).2 =
          50000000 :=
  waterfall_payout_invariants 10000000 3000000 1 20 50000000 "Non-Participating"
    (by norm_num) (by norm_num) (by norm_num) (by norm_num) (by norm_num)
    (by norm_num)

/-- C5: with identical positive parameters, `equityPercentage ∈ [0,100]` and
an exit value above the preference, the participating branch never pays the
investor less than the non-participating branch. -/
theorem participating_ge_nonparticipating
    (pre invest liq_mult equity exit_v : ℚ) (tnp tp : String)
    (h1 : 0 < pre) (h2 : 0 < invest) (h3 : 0 < liq_mult)
    (h5 : 0 ≤ equity) (h6 : equity ≤ 100)
    (hpref : invest * liq_mult < exit_v)
    (htnp : isNonParticipating tnp = true) (htp : isNonParticipating tp = false) :
    (waterfall pre invest liq_mult tnp equity exit_v).1 ≤
      (waterfall pre invest liq_mult tp equity exit_v).1 := by
  have hprefpos : 0 < invest * liq_mult := mul_pos h2 h3
  have h4 : 0 < exit_v := lt_trans hprefpos hpref
  rw [waterfall_eq_nonparticipating pre invest liq_mult equity exit_v tnp
    h1 h2 h3 h4 htnp,
    waterfall_eq_participating pre invest liq_mult equity exit_v tp
    h1 h2 h3 h4 htp]
  dsimp only
  have ho : 0 < ownerFrac pre invest equity := ownerFrac_pos equity h1 h2
  have ho1 : ownerFrac pre invest equity ≤ 1 := ownerFrac_le_one h1 h2 h6
  have hrem : max (exit_v - invest * liq_mult) 0 = exit_v - invest * liq_mult :=
    max_eq_left (by linarith)
  rw [hrem]
  refine min_le_min (max_le ?_ ?_) le_rfl
  · nlinarith [mul_nonneg ho.le (sub_nonneg.mpr hpref.le)]
  · nlinarith [mul_nonneg (sub_nonneg.mpr ho1) hprefpos.le]

/-- C5 witness: on the spec's example the participating investor payout
(`12_400_000`) is at least the non-participating one (`10_000_000`). -/
theorem participating_ge_nonparticipating_witness :
    (waterfall 10000000 3000000 1 "Non-Participating" 20 50000000).1 ≤
      (waterfall 10000000 3000000 1 "Participating" 20 50000000).1 :=
  participating_ge_nonparticipating 10000000 3000000 1 20 50000000
    "Non-Participating" "Participating" (by norm_num) (by norm_num)
    (by norm_num) (by norm_num) (by norm_num) (by norm_num) (by decide)
    (by decide)

/-- C6: on the non-participating branch, for fixed other parameters with
`equityPercentage ∈ [0,100]`, the investor payout is monotone non-decreasing
in the exit value, and once the exit value clears the preference the founder
payout is monotone non-decreasing as well. -/
theorem nonparticipating_monotone
    (pre invest liq_mult equity e1 e2 : ℚ) (t : String)
    (h1 : 0 < pre) (h2 : 0 < invest) (h3 : 0 < liq_mult)
    (h5 : 0 ≤ equity) (h6 : equity ≤ 100)
    (he1 : 0 < e1) (h12 : e1 ≤ e2)
    (ht : isNonParticipating t = true) :
    (waterfall pre invest liq_mult t equity e1).1 ≤
      (waterfall pre invest liq_mult t equity e2).1 ∧
    (invest * liq_mult ≤ e1 →
      (waterfall pre invest liq_mult t equity e1).2 ≤
        (waterfall pre invest liq_mult t equity e2).2) := by
  have he2 : 0 < e2 := lt_of_lt_of_le he1 h12
  rw [waterfall_eq_nonparticipating pre invest liq_mult equity e1 t
    h1 h2 h3 he1 ht,
    waterfall_eq_nonparticipating pre invest liq_mult equity e2 t
    h1 h2 h3 he2 ht]
  dsimp only
  have ho : 0 < ownerFrac pre invest equity := ownerFrac_pos equity h1 h2
  have ho1 : ownerFrac pre invest equity ≤ 1 := ownerFrac_le_one h1 h2 h6
  have hkey : min (max (invest * liq_mult) (ownerFrac pre invest equity * e2)) e2 ≤
      min (max (invest * liq_mult) (ownerFrac pre invest equity * e1)) e1 +
        (e2 - e1) := by
    have ha : max (invest * liq_mult) (ownerFrac pre invest equity * e2) ≤
        max (invest * liq_mult) (ownerFrac pre invest equity * e1) + (e2 - e1) := by
      refine max_le ?_ ?_
      · have := le_max_left (invest * liq_mult) (ownerFrac pre invest equity * e1)
        linarith
      · have := le_max_right (invest * liq_mult) (ownerFrac pre invest equity * e1)
        nlinarith [mul_nonneg (sub_nonneg.mpr ho1) (sub_nonneg.mpr h12)]
    calc min (max (invest * liq_mult) (ownerFrac pre invest equity * e2)) e2
        ≤ min (max (invest * liq_mult) (ownerFrac pre invest equity * e1) +
            (e2 - e1)) (e1 + (e2 - e1)) :=
          min_le_min ha (by linarith)
      _ = min (max (invest * liq_mult) (ownerFrac pre invest equity * e1)) e1 +
            (e2 - e1) := min_add_add_right _ _ _
  constructor
  · exact min_le_min
      (max_le_max le_rfl (mul_le_mul_of_nonneg_left h12 ho.le)) h12
  · intro _
    exact max_le_max (by linarith) le_rfl

/-- C6 witness: monotonicity at the spec's example between exit values
`50_000_000` and `100_000_000` (preference `3_000_000` cleared). -/
theorem nonparticipating_monotone_witness :
    (waterfall 10000000 3000000 1 "Non-Participating" 20 50000000).1 ≤
      (waterfall 10000000 3000000 1 "Non-Participating" 20 100000000).1 ∧
    ((3000000 : ℚ) * 1 ≤ 50000000 →
      (waterfall 10000000 3000000 1 "Non-Participating" 20 50000000).2 ≤
        (waterfall 10000000 3000000 1 "Non-Participating" 20 100000000).2) :=
  nonparticipating_monotone 10000000 3000000 1 20 50000000 100000000
    "Non-Participating" (by norm_num) (by norm_num) (by norm_num) (by norm_num)
    (by norm_num) (by norm_num) (by norm_num) (by decide)

end TermSheetGPT
